import Mathlib

/-!
# Verification of the Pesaprime wallet / investment backend

Shallow embedding of the wallet ledger, position store, valuation and PnL
logic of the Pesaprime backend.  Two variants exist in the source and both
are embedded where a claim refers to both:

* the flat-file variant (`src/app/main.py`), whose state is a set of JSON
  dictionaries keyed by strings; embedded as association lists inside
  `FileState`;
* the ORM variant (`src/app/routes/*.py` with `src/app/models/*.py` and
  `src/app/schemas/*.py`), whose per-request state is a single wallet row
  plus inserted activity rows; embedded as plain records.

Python floats are modelled as exact rationals (`ℚ`); Python `round(x, 2)`
is modelled as rounding to two decimals with ties to even (`pyRound2`).
Non-deterministic inputs of the handlers (timestamps, uuids, password
hashes, the randomly drawn price table) are threaded as explicit
parameters.  HTTP error responses (`HTTPException(detail=...)`) are
modelled as `Except String` with the detail string.
-/

namespace Pesaprime

/-- Association-list model of a Python `dict` with string keys:
`alookup` is `d.get(k)`. -/
def alookup {α : Type} (m : List (String × α)) (k : String) : Option α :=
  (m.find? (fun p => p.1 == k)).map Prod.snd

/-- `d[k] = v` on a Python dict: replaces in place when the key exists,
appends otherwise (Python dicts preserve insertion order). -/
def aset {α : Type} (m : List (String × α)) (k : String) (v : α) :
    List (String × α) :=
  match m with
  | [] => [(k, v)]
  | (k', v') :: rest =>
      if k' == k then (k, v) :: rest else (k', v') :: aset rest k v

/-- `d.values()` on a Python dict. -/
def avalues {α : Type} (m : List (String × α)) : List α := m.map Prod.snd

/-- A wallet entry of `user_wallets.json` (flat-file variant) and the
`WalletData` response model. -/
structure Wallet where
  balance : ℚ
  equity : ℚ
  currency : String
  deriving Repr, DecidableEq

/-- The default wallet used by `wallets.get(phone, {...})` in
`get_wallet_balance`, `deposit_funds`, `withdraw_funds`, `buy_investment`:
`{"balance": 0, "equity": 0, "currency": "KES"}`. -/
def defaultWallet : Wallet := ⟨0, 0, "KES"⟩

/-- An entry of `user_activity.json`, as built by `log_user_activity`. -/
structure UserActivity where
  id : String
  user_phone : String
  activity_type : String
  amount : ℚ
  description : String
  timestamp : String
  status : String
  deriving Repr, DecidableEq

/-- An entry of `user_investments.json`, as built by `buy_investment`.
The numeric-format details of derived strings are abstracted; every field
read by the embedded operations is present. -/
structure Investment where
  id : String
  user_phone : String
  asset_id : String
  asset_name : String
  invested_amount : ℚ
  current_value : ℚ
  units : ℚ
  entry_price : ℚ
  current_price : ℚ
  hourly_income : ℚ
  total_income : ℚ
  duration : ℚ
  roi_percentage : ℚ
  profit_loss : ℚ
  profit_loss_percentage : ℚ
  status : String
  created_at : String
  completion_time : String
  deriving Repr, DecidableEq

/-- An asset dictionary as produced by `generate_dynamic_prices`,
restricted to the fields read by `buy_investment` and
`update_investment_values` (the remaining fields — symbol, trend,
moving average, chart url — are presentation only and never read by the
embedded operations). -/
structure Asset where
  id : String
  name : String
  current_price : ℚ
  min_investment : ℚ
  hourly_income : ℚ
  total_income : ℚ
  duration : ℚ
  roi_percentage : ℚ
  deriving Repr, DecidableEq

/-- A `users.json` entry (flat-file variant). -/
structure UserRec where
  id : String
  name : String
  email : String
  phone_number : String
  hashed_password : String
  created_at : String
  deriving Repr, DecidableEq

/-- The flat-file stores of `main.py` that the embedded operations touch:
`users.json`, `user_wallets.json`, `user_investments.json`,
`user_activity.json` (sessions are an authentication concern, outside the
embedded core). -/
structure FileState where
  users : List (String × UserRec)
  wallets : List (String × Wallet)
  investments : List (String × Investment)
  activities : List (String × UserActivity)
  deriving Repr, DecidableEq

/-- `get_next_id(data)` of `main.py`: the numeric keys of the dict are
collected with Python `int(key)`, and the id is `str(max + 1)`, or `"1"`
when there is no numeric key. -/
def get_next_id {α : Type} (m : List (String × α)) : String :=
  let numeric_keys := m.filterMap (fun p => p.1.toInt?)
  match numeric_keys with
  | [] => "1"
  | k :: rest => toString (rest.foldl max k + 1)

/-- `log_user_activity(user_phone, activity_type, amount, description,
status)` of `main.py`: allocates the next id over the activity store and
appends the record. -/
def log_user_activity (user_phone activity_type : String) (amount : ℚ)
    (description : String) (status : String) (ts : String)
    (activities : List (String × UserActivity)) :
    UserActivity × List (String × UserActivity) :=
  let activity_id := get_next_id activities
  let activity : UserActivity :=
    { id := activity_id, user_phone := user_phone
      activity_type := activity_type, amount := amount
      description := description, timestamp := ts, status := status }
  (activity, aset activities activity_id activity)

/-- The wallet `deposit_funds`/`withdraw_funds`/`buy_investment` read for
a phone number: `wallets.get(phone, {"balance": 0, "equity": 0,
"currency": "KES"})`. -/
def wallet_of (s : FileState) (phone : String) : Wallet :=
  (alookup s.wallets phone).getD defaultWallet

/-- Response body of the flat-file `deposit_funds`/`withdraw_funds`
(`TransactionResponse`, with the timestamp-derived transaction id
abstracted away). -/
structure TxResp where
  new_balance : ℚ
  new_equity : ℚ
  deriving Repr, DecidableEq

/-- `GET /api/wallet/balance/{phone_number}` of `main.py` (body, after
session validation): the returned `WalletData` is read from the wallet
store before `update_investment_values` runs, and that update touches
only the investments store, so the response is exactly the stored wallet
or the default. -/
def get_wallet_balance (phone : String) (s : FileState) : Wallet :=
  wallet_of s phone

/-- `POST /api/wallet/deposit` of `main.py` (body, after session and
ownership validation).  The amount is added unconditionally: the
flat-file variant has no `amount > 0` validation. -/
def deposit_funds (phone : String) (amount : ℚ) (ts : String)
    (s : FileState) : TxResp × FileState :=
  let w := wallet_of s phone
  let w' : Wallet := { w with balance := w.balance + amount
                              equity := w.equity + amount }
  let wallets' := aset s.wallets phone w'
  let (_, acts') := log_user_activity phone "deposit" amount
      "Deposit of KSh" "completed" ts s.activities
  (⟨w'.balance, w'.equity⟩, { s with wallets := wallets', activities := acts' })

/-- `POST /api/wallet/withdraw` of `main.py` (body, after session and
ownership validation): rejects when `balance < amount`, otherwise
decreases balance and equity and logs a `withdraw` activity whose amount
is the (positive) request amount. -/
def withdraw_funds (phone : String) (amount : ℚ) (ts : String)
    (s : FileState) : Except String (TxResp × FileState) :=
  let w := wallet_of s phone
  if w.balance < amount then .error "Insufficient balance"
  else
    let w' : Wallet := { w with balance := w.balance - amount
                                equity := w.equity - amount }
    let wallets' := aset s.wallets phone w'
    let (_, acts') := log_user_activity phone "withdraw" amount
        "Withdrawal of KSh" "completed" ts s.activities
    .ok (⟨w'.balance, w'.equity⟩,
      { s with wallets := wallets', activities := acts' })

/-- `POST /api/investments/buy` of `main.py` (body, after session and
ownership validation), checks in source order: balance, asset lookup,
minimum investment; then creates the position, debits the balance only,
and logs an `investment` activity whose amount is the (positive) debited
amount.  `assets` is the price table drawn by `generate_dynamic_prices`;
`ts`/`compl` are the created/completion timestamps. -/
def buy_investment (phone asset_id : String) (amount : ℚ)
    (assets : List Asset) (ts compl : String) (s : FileState) :
    Except String (Investment × ℚ × FileState) :=
  let w := wallet_of s phone
  if w.balance < amount then .error "Insufficient balance"
  else
    match assets.find? (fun a => a.id == asset_id) with
    | none => .error "Asset not found"
    | some asset =>
      if amount < asset.min_investment then
        .error ("Minimum investment is " ++ toString asset.min_investment
          ++ " KES")
      else
        let units := amount / asset.current_price
        let investment_id := get_next_id s.investments
        let inv : Investment :=
          { id := investment_id, user_phone := phone
            asset_id := asset_id, asset_name := asset.name
            invested_amount := amount, current_value := amount
            units := units, entry_price := asset.current_price
            current_price := asset.current_price
            hourly_income := asset.hourly_income
            total_income := asset.total_income
            duration := asset.duration
            roi_percentage := asset.roi_percentage
            profit_loss := 0, profit_loss_percentage := 0
            status := "active", created_at := ts, completion_time := compl }
        let invs' := aset s.investments investment_id inv
        let w' : Wallet := { w with balance := w.balance - amount }
        let wallets' := aset s.wallets phone w'
        let (_, acts') := log_user_activity phone "investment" amount
            ("Investment in " ++ asset.name ++ " - units") "completed" ts
            s.activities
        .ok (inv, w'.balance,
          { s with wallets := wallets', investments := invs',
                   activities := acts' })

/-- The loop body of `update_investment_values` for one matched position:
`current_value = units * price`, `profit_loss = current_value -
invested_amount`, `profit_loss_percentage = profit_loss / invested_amount
* 100`, and `current_price` refreshed; all other fields untouched.  This
is the spec's `revalue(position, currentPrice)`. -/
def revalue_position (inv : Investment) (price : ℚ) : Investment :=
  let current_value := inv.units * price
  let profit_loss := current_value - inv.invested_amount
  let profit_loss_percentage := profit_loss / inv.invested_amount * 100
  { inv with current_value := current_value, current_price := price
             profit_loss := profit_loss
             profit_loss_percentage := profit_loss_percentage }

/-- One store entry under `update_investment_values(user_phone)`: the
entry is revalued when it belongs to the user, is active, and its asset
is in the current price table; otherwise it is left as is. -/
def update_entry (user_phone : String) (current_assets : List Asset)
    (e : String × Investment) : String × Investment :=
  if e.2.user_phone == user_phone && e.2.status == "active" then
    match current_assets.find? (fun a => a.id == e.2.asset_id) with
    | some asset => (e.1, revalue_position e.2 asset.current_price)
    | none => e
  else e

/-- `update_investment_values(user_phone)` of `main.py`, with the price
table drawn by `generate_dynamic_prices` passed in explicitly. -/
def update_investment_values (user_phone : String)
    (current_assets : List Asset) (s : FileState) : FileState :=
  { s with investments :=
      s.investments.map (update_entry user_phone current_assets) }

/-- `GET /api/investments/my/{phone_number}` of `main.py` (body, after
session validation): the returned list is built before
`update_investment_values` runs, so it is the filter of the stored
investments by owner and `active` status. -/
def get_my_investments (phone : String) (s : FileState) :
    List Investment :=
  (avalues s.investments).filter
    (fun inv => inv.user_phone == phone && inv.status == "active")

/-- `PnLData` response model. -/
structure PnLData where
  profit_loss : ℚ
  percentage : ℚ
  trend : String
  deriving Repr, DecidableEq

/-- Rounding to nearest integer with ties to even, the rounding of
Python's built-in `round`. -/
def roundHalfEven (x : ℚ) : ℤ :=
  let n := ⌊x⌋
  let f := x - n
  if f < 1/2 then n
  else if 1/2 < f then n + 1
  else if n % 2 = 0 then n else n + 1

/-- Python `round(x, 2)` on the exact-rational model. -/
def pyRound2 (x : ℚ) : ℚ := (roundHalfEven (x * 100) : ℚ) / 100

/-- `sum(invested_amount)` over the user's active stored positions, as
accumulated by `get_user_pnl`. -/
def total_invested_of (phone : String) (s : FileState) : ℚ :=
  ((avalues s.investments).filter
    (fun inv => inv.user_phone == phone && inv.status == "active")
    |>.map (·.invested_amount)).sum

/-- `sum(current_value)` over the user's active stored positions, as
accumulated by `get_user_pnl`. -/
def total_current_value_of (phone : String) (s : FileState) : ℚ :=
  ((avalues s.investments).filter
    (fun inv => inv.user_phone == phone && inv.status == "active")
    |>.map (·.current_value)).sum

/-- `GET /api/wallet/pnl` of `main.py` (aggregation body; the endpoint
first runs `update_investment_values`, which is composed explicitly in
the theorems where it matters): branch on `total_invested == 0`, else
profit/percentage from the sums, both rounded with `round(x, 2)`; the
trend is computed from the unrounded profit. -/
def get_user_pnl (phone : String) (s : FileState) : PnLData :=
  let total_invested := total_invested_of phone s
  let total_current_value := total_current_value_of phone s
  if total_invested = 0 then
    ⟨pyRound2 0, pyRound2 0, "neutral"⟩
  else
    let profit_loss := total_current_value - total_invested
    let percentage := profit_loss / total_invested * 100
    ⟨pyRound2 profit_loss, pyRound2 percentage,
      if 0 ≤ profit_loss then "up" else "down"⟩

/-- `POST /api/auth/register` of `main.py` (body): duplicate-email and
duplicate-phone checks, then the user is stored, the wallet is created
with the 5000 KES starting balance, and the registration and
welcome-bonus activities are logged.  There is no phone-format
validation in this variant.  `user_id`, `hashed_password` and `ts` stand
for the uuid draw, the password hash and the current time. -/
def register (name email phone_number password : String)
    (user_id hashed_password ts : String) (s : FileState) :
    Except String (UserRec × FileState) :=
  if (alookup s.users email).isSome then
    .error "Email already registered"
  else if (avalues s.users).any (fun u => u.phone_number == phone_number)
  then
    .error "Phone number already registered"
  else
    let _ := password
    let user : UserRec :=
      { id := user_id, name := name, email := email
        phone_number := phone_number, hashed_password := hashed_password
        created_at := ts }
    let wallets' := aset s.wallets phone_number ⟨5000, 5000, "KES"⟩
    let users' := aset s.users email user
    let (_, acts₁) := log_user_activity phone_number "registration" 0
        "User registered successfully" "completed" ts s.activities
    let (_, acts₂) := log_user_activity phone_number "deposit" 5000
        "Welcome bonus deposited" "completed" ts acts₁
    .ok (user, { s with users := users', wallets := wallets',
                        activities := acts₂ })

/-! ## ORM variant (`src/app/routes/*.py`) -/

/-- A `wallets` row of the ORM variant (`app/models/wallet.py`),
restricted to the fields the embedded routes read or write. -/
structure OrmWallet where
  balance : ℚ
  equity : ℚ
  currency : String
  deriving Repr, DecidableEq

/-- An `activities` row as inserted by the ORM routes. -/
structure OrmActivity where
  activity_type : String
  amount : ℚ
  description : String
  status : String
  deriving Repr, DecidableEq

/-- An `assets` row (`app/models/asset.py`), restricted to the fields the
embedded routes read. -/
structure OrmAsset where
  id : String
  name : String
  current_price : ℚ
  min_investment : ℚ
  deriving Repr, DecidableEq

/-- An `investments` row (`app/models/investment.py`), restricted to the
fields the embedded routes read or write. -/
structure OrmInvestment where
  asset_id : String
  invested_amount : ℚ
  current_value : ℚ
  units : ℚ
  entry_price : ℚ
  current_price : ℚ
  profit_loss : ℚ
  profit_loss_percentage : ℚ
  status : String
  deriving Repr, DecidableEq

/-- `POST /wallet/deposit` of `app/routes/wallet.py` (body, after
authentication; the wallet row is given — a missing row is a 404 before
this logic runs): rejects `amount <= 0`, otherwise adds the amount to
balance and equity and inserts a `deposit` activity with the positive
amount. -/
def orm_deposit_funds (w : OrmWallet) (amount : ℚ) :
    Except String (OrmWallet × OrmActivity) :=
  if amount ≤ 0 then .error "Amount must be greater than 0"
  else
    let w' : OrmWallet := { w with balance := w.balance + amount
                                   equity := w.equity + amount }
    .ok (w', { activity_type := "deposit", amount := amount
               description := "Deposit", status := "completed" })

/-- `POST /wallet/withdraw` of `app/routes/wallet.py` (body): rejects
`amount <= 0`, then `balance < amount`; otherwise subtracts the amount
from balance and equity and inserts a `withdraw` activity with amount
`-amount`. -/
def orm_withdraw_funds (w : OrmWallet) (amount : ℚ) :
    Except String (OrmWallet × OrmActivity) :=
  if amount ≤ 0 then .error "Amount must be greater than 0"
  else if w.balance < amount then .error "Insufficient balance"
  else
    let w' : OrmWallet := { w with balance := w.balance - amount
                                   equity := w.equity - amount }
    .ok (w', { activity_type := "withdraw", amount := -amount
               description := "Withdrawal", status := "completed" })

/-- `POST /investments/buy` of `app/routes/investments.py` (body), checks
in source order: asset lookup, minimum investment, wallet existence
(the wallet row is given), balance; then creates the position, debits the
balance only, and inserts an `investment` activity with amount
`-invested_amount`. -/
def orm_buy_investment (assets : List OrmAsset) (asset_id : String)
    (invested_amount : ℚ) (w : OrmWallet) :
    Except String (OrmInvestment × OrmWallet × OrmActivity) :=
  match assets.find? (fun a => a.id == asset_id) with
  | none => .error "Asset not found"
  | some asset =>
    if invested_amount < asset.min_investment then
      .error ("Minimum investment is " ++ toString asset.min_investment)
    else if w.balance < invested_amount then
      .error "Insufficient balance"
    else
      let units := invested_amount / asset.current_price
      let inv : OrmInvestment :=
        { asset_id := asset_id, invested_amount := invested_amount
          current_value := invested_amount, units := units
          entry_price := asset.current_price
          current_price := asset.current_price
          profit_loss := 0, profit_loss_percentage := 0
          status := "active" }
      let w' : OrmWallet := { w with balance := w.balance - invested_amount }
      .ok (inv, w',
        { activity_type := "investment", amount := -invested_amount
          description := "Invested in " ++ asset.name
          status := "completed" })

/-- `GET /investments/pnl/current` of `app/routes/investments.py` (body):
sums over the user's rows with status `active` (the status filter is in
the DB query), computes `total_pnl = total_current - total_invested`,
percentage only when `total_invested > 0`, and a trend that is `"up"`
when `total_pnl >= 0` and `"down"` otherwise — this variant has no
`"neutral"` branch. -/
def get_current_pnl (invs : List OrmInvestment) : PnLData :=
  let active := invs.filter (fun inv => inv.status == "active")
  let total_invested := (active.map (·.invested_amount)).sum
  let total_current := (active.map (·.current_value)).sum
  let total_pnl := total_current - total_invested
  let pnl_percentage :=
    if 0 < total_invested then total_pnl / total_invested * 100 else 0
  ⟨total_pnl, pnl_percentage, if 0 ≤ total_pnl then "up" else "down"⟩

/-- A registration request body (`UserCreate` of `app/schemas/user.py`). -/
structure UserCreateReq where
  email : String
  name : String
  phone_number : String
  password : String
  deriving Repr, DecidableEq

/-- Python's `v.startswith('+')`: the string's first character is
`'+'` (for a one-character prefix the two are the same test). -/
def startsWithPlus (s : String) : Bool :=
  match s.data with
  | [] => false
  | c :: _ => c == '+'

/-- The pydantic field validators of `UserCreate`
(`app/schemas/user.py`): password length at least 6, phone number must
start with `"+"`.  Pydantic collects the failures of all field
validators, so the result is the list of validation error messages. -/
def user_create_validation_errors (req : UserCreateReq) : List String :=
  (if req.password.length < 6 then
    ["Password must be at least 6 characters"] else [])
  ++ (if !(startsWithPlus req.phone_number) then
    ["Phone number must include country code"] else [])

/-- A `users` row of the ORM variant, restricted to the registered
fields. -/
structure OrmUser where
  email : String
  phone_number : String
  name : String
  hashed_password : String
  deriving Repr, DecidableEq

/-- `POST /auth/register` of `app/routes/auth.py`, preceded by the
pydantic validation of the request body (which runs before the handler
and rejects the request with the validation errors, creating nothing):
then the duplicate email-or-phone check, user creation, and wallet
creation with balance 0, equity 0, currency "KES". -/
def orm_register (req : UserCreateReq) (hashed_password : String)
    (users : List OrmUser) :
    Except (List String) (OrmUser × OrmWallet) :=
  match user_create_validation_errors req with
  | [] =>
    if users.any (fun u => u.email == req.email
        || u.phone_number == req.phone_number) then
      .error ["User with this email or phone number already exists"]
    else
      .ok ({ email := req.email, phone_number := req.phone_number
             name := req.name, hashed_password := hashed_password },
           { balance := 0, equity := 0, currency := "KES" })
  | errs => .error errs

/-! ## Sequences of flat-file wallet operations (for the balance
invariant) -/

/-- One wallet-affecting request of the flat-file variant: a deposit, a
withdrawal, or an investment buy (with its asset id and the price table
drawn for that request). -/
inductive WalletOp where
  | dep (amount : ℚ)
  | wd (amount : ℚ)
  | buy (asset_id : String) (amount : ℚ) (assets : List Asset)
  deriving DecidableEq

/-- Run one operation against the flat-file state; a rejected operation
(an `HTTPException`) leaves the state unchanged, exactly as the handlers
raise before writing anything. -/
def runOp (phone ts compl : String) (s : FileState) : WalletOp → FileState
  | .dep a => (deposit_funds phone a ts s).2
  | .wd a =>
      match withdraw_funds phone a ts s with
      | .ok (_, s') => s'
      | .error _ => s
  | .buy asset_id a assets =>
      match buy_investment phone asset_id a assets ts compl s with
      | .ok (_, _, s') => s'
      | .error _ => s

/-- Run a sequence of wallet operations. -/
def runOps (phone ts compl : String) (ops : List WalletOp)
    (s : FileState) : FileState :=
  ops.foldl (runOp phone ts compl) s

/-- Boolean side condition used in the amended balance invariant: the
operation is not a deposit of a negative amount (the flat-file deposit
handler does not validate its amount). -/
def depNonneg : WalletOp → Bool
  | .dep a => decide (0 ≤ a)
  | _ => true

/-! ## Helper lemmas about the dict model -/

theorem alookup_aset_self {α : Type} (m : List (String × α)) (k : String)
    (v : α) : alookup (aset m k v) k = some v := by
  induction m with
  | nil => simp [aset, alookup]
  | cons p rest ih =>
    obtain ⟨k', v'⟩ := p
    by_cases h : k' == k
    · simp [aset, alookup, h]
    · simpa [aset, alookup, h] using ih

theorem aset_aset {α : Type} (m : List (String × α)) (k : String)
    (v₁ v₂ : α) : aset (aset m k v₁) k v₂ = aset m k v₂ := by
  induction m with
  | nil => simp [aset]
  | cons p rest ih =>
    obtain ⟨k', v'⟩ := p
    by_cases h : k' == k
    · simp [aset, h]
    · simp [aset, h, ih]

theorem mem_avalues_aset {α : Type} (m : List (String × α)) (k : String)
    (v : α) : v ∈ avalues (aset m k v) := by
  induction m with
  | nil => simp [aset, avalues]
  | cons p rest ih =>
    obtain ⟨k', v'⟩ := p
    by_cases h : k' == k
    · simp [aset, avalues, h]
    · simp only [aset, h, if_neg, Bool.false_eq_true, not_false_iff]
      simp only [avalues, List.map_cons, List.mem_cons]
      right
      exact ih

/-- The target phone's wallet after a flat-file deposit. -/
theorem wallet_of_deposit (phone : String) (a : ℚ) (ts : String)
    (s : FileState) :
    wallet_of (deposit_funds phone a ts s).2 phone =
      { wallet_of s phone with
          balance := (wallet_of s phone).balance + a
          equity := (wallet_of s phone).equity + a } := by
  simp [deposit_funds, wallet_of, alookup_aset_self]

/-- A flat-file withdrawal preserves a non-negative balance: it is either
rejected, or it subtracts an amount that the balance covers. -/
theorem runOp_wd_nonneg (phone ts compl : String) (s : FileState) (a : ℚ)
    (h0 : 0 ≤ (wallet_of s phone).balance) :
    0 ≤ (wallet_of (runOp phone ts compl s (.wd a)) phone).balance := by
  by_cases hlt : (wallet_of s phone).balance < a
  · simpa [runOp, withdraw_funds, hlt] using h0
  · have hle : a ≤ (wallet_of s phone).balance := not_lt.mp hlt
    simp only [runOp, withdraw_funds, hlt, if_false]
    simp [wallet_of, alookup_aset_self]
    simp only [wallet_of] at hle
    linarith [hle]

/-- A flat-file buy preserves a non-negative balance: it is rejected
unless the balance covers the amount, and then debits exactly the
amount. -/
theorem runOp_buy_nonneg (phone ts compl : String) (s : FileState)
    (asset_id : String) (a : ℚ) (assets : List Asset)
    (h0 : 0 ≤ (wallet_of s phone).balance) :
    0 ≤ (wallet_of (runOp phone ts compl s (.buy asset_id a assets))
          phone).balance := by
  by_cases hlt : (wallet_of s phone).balance < a
  · simpa [runOp, buy_investment, hlt] using h0
  · have hle : a ≤ (wallet_of s phone).balance := not_lt.mp hlt
    simp only [runOp, buy_investment, hlt, if_false]
    cases hfind : assets.find? (fun x => x.id == asset_id) with
    | none => simpa using h0
    | some asset =>
      by_cases hmin : a < asset.min_investment
      · simpa [hmin] using h0
      · simp only [hmin, if_false]
        simp [wallet_of, alookup_aset_self]
        simp only [wallet_of] at hle
        linarith [hle]

/-- Preservation of a non-negative balance by one operation, provided a
deposit's amount is non-negative. -/
theorem runOp_preserves_nonneg (phone ts compl : String) (s : FileState)
    (op : WalletOp) (h0 : 0 ≤ (wallet_of s phone).balance)
    (hdep : depNonneg op = true) :
    0 ≤ (wallet_of (runOp phone ts compl s op) phone).balance := by
  cases op with
  | dep a =>
      have ha : 0 ≤ a := by simpa [depNonneg] using hdep
      have h := wallet_of_deposit phone a ts s
      simp only [runOp, h]
      show 0 ≤ (wallet_of s phone).balance + a
      linarith [h0, ha]
  | wd a => exact runOp_wd_nonneg phone ts compl s a h0
  | buy asset_id a assets =>
      exact runOp_buy_nonneg phone ts compl s asset_id a assets h0

/-- Preservation of a non-negative balance by a sequence of operations. -/
theorem runOps_preserves_nonneg (phone ts compl : String)
    (ops : List WalletOp) (s : FileState)
    (h0 : 0 ≤ (wallet_of s phone).balance)
    (hdep : ∀ op ∈ ops, depNonneg op = true) :
    0 ≤ (wallet_of (runOps phone ts compl ops s) phone).balance := by
  induction ops generalizing s with
  | nil => simpa [runOps] using h0
  | cons op rest ih =>
      have h1 := runOp_preserves_nonneg phone ts compl s op h0
        (hdep op (by simp))
      have h2 := ih (runOp phone ts compl s op)
        h1 (fun o ho => hdep o (by simp [ho]))
      simpa [runOps] using h2

/-- Revaluing twice with the same price is the identity on the second
application: the unit count and invested amount are never modified, so
the recomputed fields coincide. -/
theorem revalue_position_idem (inv : Investment) (price : ℚ) :
    revalue_position (revalue_position inv price) price =
      revalue_position inv price := rfl

/-- One store entry is idempotent under `update_entry`: the ownership,
status and asset-id fields that select the branch are untouched by
revaluation. -/
theorem update_entry_idem (phone : String) (assets : List Asset)
    (e : String × Investment) :
    update_entry phone assets (update_entry phone assets e) =
      update_entry phone assets e := by
  obtain ⟨k, inv⟩ := e
  by_cases h : (inv.user_phone == phone && inv.status == "active") = true
  · cases hf : assets.find? (fun a => a.id == inv.asset_id) with
    | none => simp [update_entry, h, hf]
    | some asset =>
        have h2 : ((revalue_position inv asset.current_price).user_phone
            == phone &&
            (revalue_position inv asset.current_price).status == "active")
            = true := h
        have hf2 : assets.find? (fun a =>
            a.id == (revalue_position inv asset.current_price).asset_id)
            = some asset := hf
        simp [update_entry, h, hf, h2, hf2, revalue_position_idem]
  · simp [update_entry, h]

/-- `update_investment_values` with a fixed price table is idempotent. -/
theorem update_investment_values_idem (phone : String)
    (assets : List Asset) (s : FileState) :
    update_investment_values phone assets
      (update_investment_values phone assets s) =
      update_investment_values phone assets s := by
  have hmap : ∀ (l : List (String × Investment)),
      (l.map (update_entry phone assets)).map (update_entry phone assets)
        = l.map (update_entry phone assets) := by
    intro l
    induction l with
    | nil => simp
    | cons x xs ih => simp [ih, update_entry_idem]
  simp [update_investment_values, hmap]

/-- Python `round(0, 2) = 0`. -/
theorem pyRound2_zero : pyRound2 0 = 0 := by
  norm_num [pyRound2, roundHalfEven]

/-! ## Concrete fixtures used by witnesses and counterexamples -/

/-- An empty flat-file state (all four JSON stores empty, as created by
the startup event). -/
def emptyState : FileState := ⟨[], [], [], []⟩

/-- Sample phone number with country code. -/
def exPhone : String := "+254700000001"

/-- Sample asset table entry matching Scenarios C/D of the spec:
bitcoin at price 92000, minimum investment 700. -/
def exAsset : Asset :=
  { id := "bitcoin", name := "Bitcoin", current_price := 92000
    min_investment := 700, hourly_income := 150, total_income := 3600
    duration := 24, roi_percentage := 500 }

/-- Sample flat-file state: one registered wallet with balance 5000. -/
def exState : FileState :=
  { users := [], wallets := [(exPhone, ⟨5000, 5000, "KES"⟩)]
    investments := [], activities := [] }

/-- Sample ORM asset matching `exAsset`. -/
def exOrmAsset : OrmAsset :=
  { id := "bitcoin", name := "Bitcoin", current_price := 92000
    min_investment := 700 }

/-- Sample ORM wallet. -/
def exOrmWallet : OrmWallet := ⟨5000, 5000, "KES"⟩

/-- An active stored position of `exPhone` with the given invested
amount and current value. -/
def exInvestment (id : String) (invested cv : ℚ) : Investment :=
  { id := id, user_phone := exPhone, asset_id := "bitcoin"
    asset_name := "Bitcoin", invested_amount := invested
    current_value := cv, units := invested / 92000, entry_price := 92000
    current_price := 92000, hourly_income := 150, total_income := 3600
    duration := 24, roi_percentage := 500, profit_loss := cv - invested
    profit_loss_percentage := (cv - invested) / invested * 100
    status := "active", created_at := "t", completion_time := "c" }

/-- Scenario E state: two open positions with invested 700 and 600 and
current values 750 and 550. -/
def scenarioEState : FileState :=
  { users := [], wallets := [(exPhone, ⟨5000, 5000, "KES"⟩)]
    investments := [("1", exInvestment "1" 700 750),
                    ("2", exInvestment "2" 600 550)]
    activities := [] }

/-- Registered emails after a flat-file register call (empty on
failure); used to observe whether an account was created. -/
def okUsers (r : Except String (UserRec × FileState)) : List String :=
  match r with
  | .ok (_, s) => s.users.map Prod.fst
  | .error _ => []

/-- The `(activity_type, amount)` pairs stored after a flat-file wallet
call (empty on failure); used to observe the logged activities. -/
def okActivityPairs (r : Except String (TxResp × FileState)) :
    List (String × ℚ) :=
  match r with
  | .ok (_, s) => (avalues s.activities).map
      (fun a => (a.activity_type, a.amount))
  | .error _ => []

/-! ## Claims -/

/-- C1: for every account and every withdrawal amount strictly greater
than the current balance, the withdraw operation fails with the
insufficient-balance error and the stored balance and equity are
untouched (the handler raises before any write, so no successor state is
produced); in both the flat-file and the ORM variant (the latter under
the ORM invariant that balances are non-negative, so that the
amount-positivity check cannot fire first). -/
theorem C1_withdraw_insufficient :
    (∀ (s : FileState) (phone : String) (amount : ℚ) (ts : String),
      (wallet_of s phone).balance < amount →
      withdraw_funds phone amount ts s = .error "Insufficient balance") ∧
    (∀ (w : OrmWallet) (amount : ℚ), 0 ≤ w.balance →
      w.balance < amount →
      orm_withdraw_funds w amount = .error "Insufficient balance") := by
  constructor
  · intro s phone amount ts h
    simp [withdraw_funds, h]
  · intro w amount h0 h
    have hpos : ¬ amount ≤ 0 := by linarith
    simp [orm_withdraw_funds, hpos, h]

/-- Witness for C1 at Scenario B: balance 6000, withdraw 7000 fails with
the insufficient-balance error in both variants. -/
theorem C1_withdraw_insufficient_witness :
    withdraw_funds "+254700000001" 7000 "t"
      ⟨[], [("+254700000001", ⟨6000, 6000, "KES"⟩)], [], []⟩ =
      .error "Insufficient balance" ∧
    orm_withdraw_funds ⟨6000, 6000, "KES"⟩ 7000 =
      .error "Insufficient balance" :=
  ⟨C1_withdraw_insufficient.1 _ _ _ _ (by decide),
   C1_withdraw_insufficient.2 _ _ (by decide) (by decide)⟩

/-- C2 counterexample: the flat-file deposit handler has no amount
validation, so a single deposit of −1 drives a balance that starts at 0
(the default wallet) below zero — the claimed invariant fails. -/
theorem C2_counterexample :
    0 ≤ (wallet_of emptyState "+254700000001").balance ∧
    (wallet_of (runOps "+254700000001" "t" "c" [.dep (-1)] emptyState)
        "+254700000001").balance < 0 := by
  refine ⟨by decide, ?_⟩
  norm_num [runOps, runOp, deposit_funds, wallet_of, alookup, aset,
    avalues, log_user_activity, get_next_id, emptyState, defaultWallet,
    List.foldl, List.find?]

/-- C2 amended: starting from a non-negative balance, any sequence of
deposit, withdraw and buy operations keeps the balance non-negative
provided every deposit amount is non-negative (withdraw and buy reject
when the balance would go negative; the flat-file deposit does not
validate its amount, which is what the counterexample exploits). -/
theorem C2_balance_nonneg (phone ts compl : String) (ops : List WalletOp)
    (s : FileState) (h0 : 0 ≤ (wallet_of s phone).balance)
    (hdep : ∀ op ∈ ops, depNonneg op = true) :
    0 ≤ (wallet_of (runOps phone ts compl ops s) phone).balance :=
  runOps_preserves_nonneg phone ts compl ops s h0 hdep

/-- Witness for C2: a concrete mixed sequence of operations keeps the
balance non-negative. -/
theorem C2_balance_nonneg_witness :
    0 ≤ (wallet_of (runOps "+254700000001" "t" "c"
      [.dep 1000, .wd 6000, .buy "bitcoin" 700 [exAsset], .wd 100]
      exState) "+254700000001").balance :=
  C2_balance_nonneg _ _ _ _ _ (by decide) (by decide)

/-- C3 counterexample: the flat-file deposit handler accepts a negative
amount — a deposit of −5 on balance 5000 is not rejected and changes the
stored balance to 4995. -/
theorem C3_counterexample :
    (wallet_of exState exPhone).balance = 5000 ∧
    (deposit_funds exPhone (-5) "t" exState).1.new_balance = 4995 ∧
    (wallet_of (deposit_funds exPhone (-5) "t" exState).2 exPhone).balance
      = 4995 ∧
    ((4995 : ℚ) = 5000 → False) := by
  refine ⟨by decide, ?_, ?_, by norm_num⟩
  · norm_num [deposit_funds, wallet_of, alookup, aset, exState, exPhone,
      log_user_activity, get_next_id, List.find?]
  · norm_num [deposit_funds, wallet_of, alookup, aset, exState, exPhone,
      log_user_activity, get_next_id, List.find?]

/-- C3 amended: the ORM deposit rejects `amount ≤ 0` with a validation
error (leaving the wallet untouched — no successor wallet is produced)
and adds the amount to balance and equity when `amount > 0`; the
flat-file deposit performs no validation and unconditionally adds the
(possibly non-positive) amount to balance and equity. -/
theorem C3_deposit_validation :
    (∀ (w : OrmWallet) (a : ℚ), a ≤ 0 →
      orm_deposit_funds w a = .error "Amount must be greater than 0") ∧
    (∀ (w : OrmWallet) (a : ℚ), 0 < a →
      orm_deposit_funds w a = .ok
        ({ w with balance := w.balance + a, equity := w.equity + a },
         { activity_type := "deposit", amount := a
           description := "Deposit", status := "completed" })) ∧
    (∀ (s : FileState) (phone : String) (a : ℚ) (ts : String),
      wallet_of (deposit_funds phone a ts s).2 phone =
        { wallet_of s phone with
            balance := (wallet_of s phone).balance + a
            equity := (wallet_of s phone).equity + a }) := by
  refine ⟨?_, ?_, ?_⟩
  · intro w a ha
    simp [orm_deposit_funds, ha]
  · intro w a ha
    have : ¬ a ≤ 0 := by linarith
    simp [orm_deposit_funds, this]
  · intro s phone a ts
    exact wallet_of_deposit phone a ts s

/-- Witness for C3: concrete rejected and accepted ORM deposits, and a
concrete flat-file deposit. -/
theorem C3_deposit_validation_witness :
    orm_deposit_funds exOrmWallet (-5) =
      .error "Amount must be greater than 0" ∧
    orm_deposit_funds exOrmWallet 1000 = .ok
      ({ exOrmWallet with balance := exOrmWallet.balance + 1000
                          equity := exOrmWallet.equity + 1000 },
       { activity_type := "deposit", amount := 1000
         description := "Deposit", status := "completed" }) ∧
    wallet_of (deposit_funds exPhone 1000 "t" exState).2 exPhone =
      { wallet_of exState exPhone with
          balance := (wallet_of exState exPhone).balance + 1000
          equity := (wallet_of exState exPhone).equity + 1000 } :=
  ⟨C3_deposit_validation.1 _ _ (by decide),
   C3_deposit_validation.2.1 _ _ (by decide),
   C3_deposit_validation.2.2 exState exPhone 1000 "t"⟩

/-- C4 counterexample: on the ORM variant, computePnL over no open
positions (sum of invested amounts 0) returns trend `"up"`, not the
claimed `"neutral"` — `get_current_pnl` has no neutral branch. -/
theorem C4_counterexample :
    get_current_pnl [] = ⟨0, 0, "up"⟩ ∧ ("up" = "neutral" → False) := by
  constructor
  · norm_num [get_current_pnl]
  · decide

/-- C4 amended: the flat-file `get_user_pnl` behaves exactly as claimed
with profit/loss and percentage rounded to two decimals (trend computed
from the unrounded profit); the ORM `get_current_pnl` returns the exact
sums but never `"neutral"` — its trend is `"up"`/`"down"` even when the
sum of invested amounts is 0. -/
theorem C4_pnl_shape :
    (∀ (phone : String) (s : FileState),
      total_invested_of phone s = 0 →
      get_user_pnl phone s = ⟨0, 0, "neutral"⟩) ∧
    (∀ (phone : String) (s : FileState),
      0 < total_invested_of phone s →
      get_user_pnl phone s =
        ⟨pyRound2 (total_current_value_of phone s -
            total_invested_of phone s),
         pyRound2 ((total_current_value_of phone s -
            total_invested_of phone s) / total_invested_of phone s
            * 100),
         if 0 ≤ total_current_value_of phone s - total_invested_of phone s
         then "up" else "down"⟩) ∧
    (∀ invs : List OrmInvestment,
      (get_current_pnl invs).trend ≠ "neutral") ∧
    (∀ invs : List OrmInvestment,
      (get_current_pnl invs).profit_loss =
        ((invs.filter (fun i => i.status == "active")).map
          (·.current_value)).sum -
        ((invs.filter (fun i => i.status == "active")).map
          (·.invested_amount)).sum) := by
  refine ⟨?_, ?_, ?_, ?_⟩
  · intro phone s h
    simp [get_user_pnl, h, pyRound2_zero]
  · intro phone s h
    simp [get_user_pnl, h.ne']
  · intro invs
    show (if _ ≤ _ then "up" else "down") ≠ "neutral"
    split <;> decide
  · intro invs
    rfl

/-- Witness for C4 at an empty portfolio (flat-file) and at Scenario E
(two positions with invested 700 and 600, current values 750 and 550). -/
theorem C4_pnl_shape_witness :
    get_user_pnl exPhone emptyState = ⟨0, 0, "neutral"⟩ ∧
    get_user_pnl exPhone scenarioEState =
      ⟨pyRound2 (total_current_value_of exPhone scenarioEState -
          total_invested_of exPhone scenarioEState),
       pyRound2 ((total_current_value_of exPhone scenarioEState -
          total_invested_of exPhone scenarioEState) /
          total_invested_of exPhone scenarioEState * 100),
       if 0 ≤ total_current_value_of exPhone scenarioEState -
          total_invested_of exPhone scenarioEState
       then "up" else "down"⟩ :=
  ⟨C4_pnl_shape.1 exPhone emptyState (by decide),
   C4_pnl_shape.2.1 exPhone scenarioEState (by
      norm_num [total_invested_of, scenarioEState, exInvestment, avalues,
        exPhone])⟩

/-- C5: a buy of an amount at least the asset's minimum investment, with
a positive asset price and a covering balance, creates a position with
unit count `amount / current price`, value equal to the invested amount,
zero profit/loss and `active` status, debits the balance by exactly the
amount, and the position is included in the immediately following
open-positions listing. -/
theorem C5_buy_roundtrip (s : FileState) (phone asset_id : String)
    (amount : ℚ) (assets : List Asset) (ts compl : String) (asset : Asset)
    (hfind : assets.find? (fun a => a.id == asset_id) = some asset)
    (_hprice : 0 < asset.current_price)
    (hmin : asset.min_investment ≤ amount)
    (hbal : amount ≤ (wallet_of s phone).balance) :
    ∃ (inv : Investment) (nb : ℚ) (s' : FileState),
      buy_investment phone asset_id amount assets ts compl s =
        .ok (inv, nb, s') ∧
      inv.units = amount / asset.current_price ∧
      inv.invested_amount = amount ∧
      inv.current_value = amount ∧
      inv.profit_loss = 0 ∧
      inv.status = "active" ∧
      nb = (wallet_of s phone).balance - amount ∧
      (wallet_of s' phone).balance =
        (wallet_of s phone).balance - amount ∧
      inv ∈ get_my_investments phone s' := by
  have hlt : ¬ (wallet_of s phone).balance < amount := not_lt.mpr hbal
  have hmin' : ¬ amount < asset.min_investment := not_lt.mpr hmin
  simp only [buy_investment, hfind, hlt, hmin', if_false]
  refine ⟨_, _, _, rfl, rfl, rfl, rfl, rfl, rfl, rfl, ?_, ?_⟩
  · simp [wallet_of, alookup_aset_self]
  · simp only [get_my_investments]
    refine List.mem_filter.mpr ⟨mem_avalues_aset _ _ _, ?_⟩
    simp

/-- Witness for C5 at Scenario D: amount 700 at price 92000 against
balance 5000. -/
theorem C5_buy_roundtrip_witness :
    ∃ (inv : Investment) (nb : ℚ) (s' : FileState),
      buy_investment exPhone "bitcoin" 700 [exAsset] "t" "c" exState =
        .ok (inv, nb, s') ∧
      inv.units = 700 / exAsset.current_price ∧
      inv.invested_amount = 700 ∧
      inv.current_value = 700 ∧
      inv.profit_loss = 0 ∧
      inv.status = "active" ∧
      nb = (wallet_of exState exPhone).balance - 700 ∧
      (wallet_of s' exPhone).balance =
        (wallet_of exState exPhone).balance - 700 ∧
      inv ∈ get_my_investments exPhone s' :=
  C5_buy_roundtrip exState exPhone "bitcoin" 700 [exAsset] "t" "c"
    exAsset (by decide) (by decide) (by decide) (by decide)

/-- C6: revalue recomputes value, profit/loss and percentage from the
fixed unit count and the supplied price, leaves the unit count
unchanged, and is idempotent (both per position and for the whole
valuation pass over the store with a fixed price table). -/
theorem C6_revalue_idempotent :
    (∀ (inv : Investment) (price : ℚ),
      (revalue_position inv price).current_value = inv.units * price ∧
      (revalue_position inv price).profit_loss =
        inv.units * price - inv.invested_amount ∧
      (revalue_position inv price).profit_loss_percentage =
        (inv.units * price - inv.invested_amount) /
          inv.invested_amount * 100 ∧
      (revalue_position inv price).units = inv.units ∧
      revalue_position (revalue_position inv price) price =
        revalue_position inv price) ∧
    (∀ (phone : String) (assets : List Asset) (s : FileState),
      update_investment_values phone assets
        (update_investment_values phone assets s) =
        update_investment_values phone assets s) := by
  constructor
  · intro inv price
    exact ⟨rfl, rfl, rfl, rfl, rfl⟩
  · intro phone assets s
    exact update_investment_values_idem phone assets s

/-- C7 counterexample: the flat-file `register` performs no phone-format
validation — registering with phone `"0712345678"` (no `"+"`) succeeds
and creates the account. -/
theorem C7_counterexample :
    startsWithPlus "0712345678" = false ∧
    okUsers (register "Test User" "user@example.com" "0712345678"
      "secret1" "uid-1" "hash" "t" emptyState) = ["user@example.com"] := by
  constructor
  · decide
  · decide

/-- C7 amended: only the ORM variant validates the phone format — its
pydantic request validation rejects a registration whose phone number
does not start with `"+"` before the handler runs, so no account is
created; the flat-file `register` has no such check. -/
theorem C7_phone_validation (req : UserCreateReq) (hp : String)
    (users : List OrmUser)
    (h : startsWithPlus req.phone_number = false) :
    ∃ errs, orm_register req hp users = .error errs ∧
      "Phone number must include country code" ∈ errs := by
  by_cases hpw : req.password.length < 6
  · refine ⟨["Password must be at least 6 characters",
      "Phone number must include country code"], ?_, ?_⟩
    · simp [orm_register, user_create_validation_errors, h, hpw]
    · simp
  · refine ⟨["Phone number must include country code"], ?_, ?_⟩
    · simp [orm_register, user_create_validation_errors, h, hpw]
    · simp

/-- Witness for C7 at Scenario F: phone `"0712345678"`. -/
theorem C7_phone_validation_witness :
    ∃ errs, orm_register
      ⟨"user@example.com", "Test User", "0712345678", "secret1"⟩ "hash" []
      = .error errs ∧
      "Phone number must include country code" ∈ errs :=
  C7_phone_validation _ _ _ (by decide)

/-- C8: a successful buy debits the balance only and leaves the equity
field unchanged, in both variants. -/
theorem C8_buy_equity_frame :
    (∀ (s : FileState) (phone asset_id : String) (amount : ℚ)
      (assets : List Asset) (ts compl : String) (asset : Asset),
      assets.find? (fun a => a.id == asset_id) = some asset →
      asset.min_investment ≤ amount →
      amount ≤ (wallet_of s phone).balance →
      ∃ inv nb s', buy_investment phone asset_id amount assets ts compl s
          = .ok (inv, nb, s') ∧
        (wallet_of s' phone).equity = (wallet_of s phone).equity ∧
        (wallet_of s' phone).balance =
          (wallet_of s phone).balance - amount) ∧
    (∀ (assets : List OrmAsset) (asset_id : String) (amount : ℚ)
      (w : OrmWallet) (asset : OrmAsset),
      assets.find? (fun a => a.id == asset_id) = some asset →
      asset.min_investment ≤ amount →
      amount ≤ w.balance →
      ∃ inv w' act, orm_buy_investment assets asset_id amount w =
          .ok (inv, w', act) ∧
        w'.equity = w.equity ∧ w'.balance = w.balance - amount) := by
  constructor
  · intro s phone asset_id amount assets ts compl asset hfind hmin hbal
    have hlt : ¬ (wallet_of s phone).balance < amount := not_lt.mpr hbal
    have hmin' : ¬ amount < asset.min_investment := not_lt.mpr hmin
    simp only [buy_investment, hfind, hlt, hmin', if_false]
    refine ⟨_, _, _, rfl, ?_, ?_⟩
    · simp [wallet_of, alookup_aset_self]
    · simp [wallet_of, alookup_aset_self]
  · intro assets asset_id amount w asset hfind hmin hbal
    have hlt : ¬ w.balance < amount := not_lt.mpr hbal
    have hmin' : ¬ amount < asset.min_investment := not_lt.mpr hmin
    simp only [orm_buy_investment, hfind, hlt, hmin', if_false]
    exact ⟨_, _, _, rfl, rfl, rfl⟩

/-- Witness for C8: a concrete successful buy in both variants. -/
theorem C8_buy_equity_frame_witness :
    (∃ inv nb s', buy_investment exPhone "bitcoin" 700 [exAsset] "t" "c"
        exState = .ok (inv, nb, s') ∧
      (wallet_of s' exPhone).equity = (wallet_of exState exPhone).equity ∧
      (wallet_of s' exPhone).balance =
        (wallet_of exState exPhone).balance - 700) ∧
    (∃ inv w' act, orm_buy_investment [exOrmAsset] "bitcoin" 700
        exOrmWallet = .ok (inv, w', act) ∧
      w'.equity = exOrmWallet.equity ∧
      w'.balance = exOrmWallet.balance - 700) :=
  ⟨C8_buy_equity_frame.1 exState exPhone "bitcoin" 700 [exAsset] "t" "c"
      exAsset (by decide) (by decide) (by decide),
   C8_buy_equity_frame.2 [exOrmAsset] "bitcoin" 700 exOrmWallet exOrmAsset
      (by decide) (by decide) (by decide)⟩

/-- C9 counterexample: a successful flat-file withdrawal of 100 logs an
activity whose amount is the positive 100, not −100 as claimed. -/
theorem C9_counterexample :
    okActivityPairs (withdraw_funds exPhone 100 "t" exState) =
      [("withdraw", 100)] ∧ ((100 : ℚ) = -100 → False) := by
  constructor
  · norm_num [okActivityPairs, withdraw_funds, wallet_of, alookup, aset,
      avalues, log_user_activity, get_next_id, exState, exPhone,
      List.find?]
  · norm_num

/-- C9 amended: the flat-file variant logs the positive request amount
for both withdraw and investment activities (with types `withdraw` and
`investment`); the ORM variant records `−amount` for both, as the claim
states. -/
theorem C9_activity_amounts :
    (∀ (s : FileState) (phone : String) (amount : ℚ) (ts : String),
      ¬ (wallet_of s phone).balance < amount →
      ∃ resp s', withdraw_funds phone amount ts s = .ok (resp, s') ∧
        alookup s'.activities (get_next_id s.activities) =
          some ⟨get_next_id s.activities, phone, "withdraw", amount,
            "Withdrawal of KSh", ts, "completed"⟩) ∧
    (∀ (s : FileState) (phone asset_id : String) (amount : ℚ)
      (assets : List Asset) (ts compl : String) (asset : Asset),
      assets.find? (fun a => a.id == asset_id) = some asset →
      asset.min_investment ≤ amount →
      amount ≤ (wallet_of s phone).balance →
      ∃ inv nb s', buy_investment phone asset_id amount assets ts compl s
          = .ok (inv, nb, s') ∧
        alookup s'.activities (get_next_id s.activities) =
          some ⟨get_next_id s.activities, phone, "investment", amount,
            "Investment in " ++ asset.name ++ " - units", ts,
            "completed"⟩) ∧
    (∀ (w : OrmWallet) (amount : ℚ), 0 < amount →
      ¬ w.balance < amount →
      orm_withdraw_funds w amount = .ok
        ({ w with balance := w.balance - amount
                  equity := w.equity - amount },
         { activity_type := "withdraw", amount := -amount
           description := "Withdrawal", status := "completed" })) ∧
    (∀ (assets : List OrmAsset) (asset_id : String) (amount : ℚ)
      (w : OrmWallet) (asset : OrmAsset),
      assets.find? (fun a => a.id == asset_id) = some asset →
      asset.min_investment ≤ amount →
      amount ≤ w.balance →
      ∃ inv w', orm_buy_investment assets asset_id amount w =
        .ok (inv, w',
          { activity_type := "investment", amount := -amount
            description := "Invested in " ++ asset.name
            status := "completed" })) := by
  refine ⟨?_, ?_, ?_, ?_⟩
  · intro s phone amount ts hlt
    simp only [withdraw_funds, hlt, if_false]
    exact ⟨_, _, rfl, alookup_aset_self _ _ _⟩
  · intro s phone asset_id amount assets ts compl asset hfind hmin hbal
    have hlt : ¬ (wallet_of s phone).balance < amount := not_lt.mpr hbal
    have hmin' : ¬ amount < asset.min_investment := not_lt.mpr hmin
    simp only [buy_investment, hfind, hlt, hmin', if_false]
    exact ⟨_, _, _, rfl, alookup_aset_self _ _ _⟩
  · intro w amount hpos hlt
    have hle : ¬ amount ≤ 0 := by linarith
    simp [orm_withdraw_funds, hle, hlt]
  · intro assets asset_id amount w asset hfind hmin hbal
    have hlt : ¬ w.balance < amount := not_lt.mpr hbal
    have hmin' : ¬ amount < asset.min_investment := not_lt.mpr hmin
    simp only [orm_buy_investment, hfind, hlt, hmin', if_false]
    exact ⟨_, _, rfl⟩

/-- Witness for C9: concrete successful withdrawals and buys in both
variants. -/
theorem C9_activity_amounts_witness :
    (∃ resp s', withdraw_funds exPhone 100 "t" exState = .ok (resp, s') ∧
      alookup s'.activities (get_next_id exState.activities) =
        some ⟨get_next_id exState.activities, exPhone, "withdraw", 100,
          "Withdrawal of KSh", "t", "completed"⟩) ∧
    (∃ inv nb s', buy_investment exPhone "bitcoin" 700 [exAsset] "t" "c"
        exState = .ok (inv, nb, s') ∧
      alookup s'.activities (get_next_id exState.activities) =
        some ⟨get_next_id exState.activities, exPhone, "investment", 700,
          "Investment in " ++ exAsset.name ++ " - units", "t",
          "completed"⟩) ∧
    orm_withdraw_funds exOrmWallet 100 = .ok
      ({ exOrmWallet with balance := exOrmWallet.balance - 100
                          equity := exOrmWallet.equity - 100 },
       { activity_type := "withdraw", amount := -100
         description := "Withdrawal", status := "completed" }) ∧
    (∃ inv w', orm_buy_investment [exOrmAsset] "bitcoin" 700 exOrmWallet
      = .ok (inv, w',
        { activity_type := "investment", amount := -700
          description := "Invested in " ++ exOrmAsset.name
          status := "completed" })) :=
  ⟨C9_activity_amounts.1 exState exPhone 100 "t" (by decide),
   C9_activity_amounts.2.1 exState exPhone "bitcoin" 700 [exAsset] "t"
     "c" exAsset (by decide) (by decide) (by decide),
   C9_activity_amounts.2.2.1 exOrmWallet 100 (by decide) (by decide),
   C9_activity_amounts.2.2.2 [exOrmAsset] "bitcoin" 700 exOrmWallet
     exOrmAsset (by decide) (by decide) (by decide)⟩

/-- C10: a wallet operation addressed to a phone number with no stored
wallet does not fail with an account-not-found error: getBalance returns
the default wallet (balance 0, equity 0, "KES"), and deposit, withdraw
and buy behave exactly as if a default wallet had been stored for that
phone; in particular a deposit of `a` to an unregistered phone silently
creates a stored wallet with balance `a` and equity `a`. -/
theorem C10_default_wallet (s : FileState) (phone : String)
    (h : alookup s.wallets phone = none) :
    get_wallet_balance phone s = defaultWallet ∧
    (∀ (a : ℚ) (ts : String),
      deposit_funds phone a ts s = deposit_funds phone a ts
        { s with wallets := aset s.wallets phone defaultWallet } ∧
      wallet_of (deposit_funds phone a ts s).2 phone = ⟨a, a, "KES"⟩) ∧
    (∀ (a : ℚ) (ts : String),
      withdraw_funds phone a ts s = withdraw_funds phone a ts
        { s with wallets := aset s.wallets phone defaultWallet }) ∧
    (∀ (asset_id : String) (a : ℚ) (assets : List Asset) (ts compl :
      String),
      buy_investment phone asset_id a assets ts compl s =
        buy_investment phone asset_id a assets ts compl
          { s with wallets := aset s.wallets phone defaultWallet }) := by
  have hw : wallet_of s phone = defaultWallet := by
    simp [wallet_of, h]
  have hw' : wallet_of
      { s with wallets := aset s.wallets phone defaultWallet } phone =
      defaultWallet := by
    simp [wallet_of, alookup_aset_self]
  refine ⟨hw, ?_, ?_, ?_⟩
  · intro a ts
    constructor
    · simp [deposit_funds, hw, hw', aset_aset]
    · have := wallet_of_deposit phone a ts s
      rw [this, hw]
      simp [defaultWallet]
  · intro a ts
    simp [withdraw_funds, hw, hw', aset_aset]
  · intro asset_id a assets ts compl
    simp [buy_investment, hw, hw', aset_aset]

/-- Witness for C10: a phone number absent from the sample state. -/
theorem C10_default_wallet_witness :
    get_wallet_balance "+254799999999" exState = defaultWallet ∧
    wallet_of (deposit_funds "+254799999999" 250 "t" exState).2
      "+254799999999" = ⟨250, 250, "KES"⟩ := by
  have h := C10_default_wallet exState "+254799999999" (by decide)
  exact ⟨h.1, (h.2.1 250 "t").2⟩

end Pesaprime

